import Mathlib

/-!
Shallow embedding of the memu_memory plugin (src/__init__.py).

The plugin orchestrates access to a remote memory service ("memu.so"):
a lazily constructed client handle, a prompt-injection hook
(`inject_relevant_memories`), an explicit recall tool (`recall_memory`)
and a write operation (`memorize_conversation`).  The remote service and
the client constructor are external collaborators, modelled as oracle
functions returning `Except Exc _` (an exception carries its Python type
name and message).  Calls made to the remote service are recorded in the
returned result structures so that properties about submitted requests
can be stated.
-/

namespace MemuMemory

/-- A Python exception, reduced to the two attributes the code consumes:
`type(e).__name__` and `str(e)`. -/
structure Exc where
  typeName : String
  message : String
deriving DecidableEq, Repr

/-- The plugin configuration (class `MemUConfig`): only the fields the
core reads.  `RECALL_TOP_K` is a Python `int`, hence `Int`. -/
structure MemUConfig where
  MEMU_API_KEY : String
  BASE_URL : String
  AGENT_ID : String
  AGENT_NAME : String
  RECALL_TOP_K : Int
deriving DecidableEq, Repr

/-- The remote client handle (`MemuClient(base_url=..., api_key=...)`). -/
structure MemuClient where
  base_url : String
  api_key : String
deriving DecidableEq, Repr

/-- One message of the conversation history (`msg.role`, `msg.content`),
also the shape of a submitted conversation fragment. -/
structure Msg where
  role : String
  content : String
deriving DecidableEq, Repr

/-- The host context (`AgentCtx`): the fields the code reads. -/
structure AgentCtx where
  from_chat_key : String
  channel_name : String
  message_history : List Msg
deriving DecidableEq, Repr

/-- The inner record of a retrieved item (`memory_item.memory`). -/
structure MemoryRecord where
  content : String
deriving DecidableEq, Repr

/-- A retrieved item (`memory_item`); only `.memory.content` is read. -/
structure MemoryItem where
  memory : MemoryRecord
deriving DecidableEq, Repr

/-- The response of `retrieve_related_memory_items`. -/
structure RetrievedResponse where
  related_memories : List MemoryItem
deriving DecidableEq, Repr

/-- The response of the remote `memorize_conversation` call. -/
structure TaskHandle where
  task_id : String
deriving DecidableEq, Repr

/-- The keyword arguments the code passes to the remote
`memu_client.memorize_conversation` call. -/
structure MemorizeRequest where
  conversation : List Msg
  user_id : String
  user_name : String
  agent_id : String
  agent_name : String
deriving DecidableEq, Repr

/-- Behaviour of the `MemuClient` constructor: takes `base_url` and
`api_key`, may raise. -/
abbrev ConstructFn := String → String → Except Exc MemuClient

/-- Behaviour of `retrieve_related_memory_items` on a given client:
arguments `query`, `user_id`, `top_k`; may raise; a falsy (`None`)
response is `Option.none`. -/
abbrev RetrieveFn := MemuClient → String → String → Int → Except Exc (Option RetrievedResponse)

/-- Behaviour of the remote `memorize_conversation` call on a given
client; may raise. -/
abbrev SubmitFn := MemuClient → MemorizeRequest → Except Exc TaskHandle

/-- `_initialize_client_if_needed`: given the current global
`memu_client` slot, returns the new slot together with whether the
constructor was invoked.  If the slot is filled, return at once; if the
API key is empty, log and leave the slot empty; otherwise attempt
construction, storing the handle on success and leaving the slot empty
on failure (the exception is swallowed). -/
def ensure_client (cfg : MemUConfig) (construct : ConstructFn)
    (memu_client : Option MemuClient) : Option MemuClient × Bool :=
  match memu_client with
  | some c => (some c, false)
  | none =>
    if cfg.MEMU_API_KEY = "" then (none, false)
    else
      match construct cfg.BASE_URL cfg.MEMU_API_KEY with
      | Except.ok c => (some c, true)
      | Except.error _ => (none, true)

/-- `N` successive calls of `ensure_client` threading the global slot,
counting how many times the constructor was invoked. -/
def ensureN (cfg : MemUConfig) (construct : ConstructFn) :
    Option MemuClient → Nat → Option MemuClient × Nat
  | st, 0 => (st, 0)
  | st, n + 1 =>
    let r := ensure_client cfg construct st
    let rest := ensureN cfg construct r.1 n
    (rest.1, (if r.2 then 1 else 0) + rest.2)

/-- Python slice `xs[-4:]` generalised: the last `n` elements. -/
def lastN (n : Nat) (xs : List α) : List α := xs.drop (xs.length - n)

/-- Result of the injector: the new global slot, the returned text, and
the `(query, user_id, top_k)` triple passed to the retrieval call, when
that call was made. -/
structure InjectResult where
  state : Option MemuClient
  text : String
  retrieval_call : Option (String × String × Int)
deriving DecidableEq, Repr

/-- `inject_relevant_memories(_ctx)`: ensure the client; if the slot is
empty or `RECALL_TOP_K == 0`, return `""`.  Build the query from the
last 4 history messages as `"role: content"` lines joined by newlines;
if empty, return `""`.  Call retrieval; any exception, a falsy response
or an empty item list yields `""`; otherwise return the header line
followed by one `"- content"` line per item, newline-joined. -/
def inject_relevant_memories (cfg : MemUConfig) (construct : ConstructFn)
    (retrieve : RetrieveFn) (memu_client : Option MemuClient)
    (ctx : AgentCtx) : InjectResult :=
  let st := (ensure_client cfg construct memu_client).1
  match st with
  | none => ⟨none, "", none⟩
  | some client =>
    if cfg.RECALL_TOP_K = 0 then ⟨some client, "", none⟩
    else
      let recent_history :=
        (lastN 4 ctx.message_history).map (fun msg => msg.role ++ ": " ++ msg.content)
      let query_text := String.intercalate "\n" recent_history
      if query_text = "" then ⟨some client, "", none⟩
      else
        let call := (query_text, ctx.from_chat_key, cfg.RECALL_TOP_K)
        match retrieve client query_text ctx.from_chat_key cfg.RECALL_TOP_K with
        | Except.error _ => ⟨some client, "", some call⟩
        | Except.ok none => ⟨some client, "", some call⟩
        | Except.ok (some retrieved_response) =>
          if retrieved_response.related_memories.isEmpty then
            ⟨some client, "", some call⟩
          else
            let prompt_lines :=
              "--- Relevant Memories Retrieved From Your Past ---" ::
                retrieved_response.related_memories.map
                  (fun memory_item => "- " ++ memory_item.memory.content)
            ⟨some client, String.intercalate "\n" prompt_lines, some call⟩

/-- Result of the memorize operation: the new global slot, the returned
confirmation or raised exception, and the request submitted to the
remote service, when the submission call was made. -/
structure MemorizeResult where
  state : Option MemuClient
  result : Except Exc String
  submitted : Option MemorizeRequest
deriving Repr

/-- `memorize_conversation(_ctx, chat_key, conversation, agent_id,
agent_name)`: ensure the client, raising `ConnectionError` if the slot
is still empty; resolve the persona (caller arguments when not `None`,
configured defaults otherwise); wrap the text as a single
`role="user"` fragment; submit; on success return the persona-branded
confirmation, on failure re-raise as `RuntimeError` carrying the
original exception's type name and message. -/
def memorize_conversation (cfg : MemUConfig) (construct : ConstructFn)
    (submit : SubmitFn) (memu_client : Option MemuClient) (ctx : AgentCtx)
    (chat_key : String) (conversation : String)
    (agent_id : Option String) (agent_name : Option String) : MemorizeResult :=
  let st := (ensure_client cfg construct memu_client).1
  match st with
  | none =>
    ⟨none, Except.error ⟨"ConnectionError",
      "memu.so client is not initialized or failed to initialize. Please check the plugin configuration."⟩,
      none⟩
  | some client =>
    let final_agent_id := match agent_id with
      | some a => a
      | none => cfg.AGENT_ID
    let final_agent_name := match agent_name with
      | some a => a
      | none => cfg.AGENT_NAME
    let structured_conversation : List Msg := [⟨"user", conversation⟩]
    let req : MemorizeRequest :=
      ⟨structured_conversation, ctx.from_chat_key, ctx.channel_name,
        final_agent_id, final_agent_name⟩
    match submit client req with
    | Except.ok _memo_response =>
      ⟨some client,
        Except.ok ("✅ " ++ final_agent_name ++ " 已经收到指令，会把内容记下来的！"),
        some req⟩
    | Except.error e =>
      ⟨some client,
        Except.error ⟨"RuntimeError",
          "Failed to memorize conversation: " ++ e.typeName ++ ": " ++ e.message⟩,
        some req⟩

/-- `recall_memory(_ctx, query)`: ensure the client, raising
`ConnectionError` if the slot is still empty; retrieve with the given
query, the chat key and `top_k = 3`; a raised exception becomes a
`RuntimeError` carrying the original type name and message; a falsy
response or empty item list yields the fixed not-found message;
otherwise the lead-in line is followed by `"i. content\n"` lines,
1-indexed, accumulated exactly as the Python loop does. -/
def recall_memory (cfg : MemUConfig) (construct : ConstructFn)
    (retrieve : RetrieveFn) (memu_client : Option MemuClient)
    (ctx : AgentCtx) (query : String) : Option MemuClient × Except Exc String :=
  let st := (ensure_client cfg construct memu_client).1
  match st with
  | none =>
    (none, Except.error ⟨"ConnectionError",
      "memu.so client is not initialized or failed to initialize. Please check the plugin configuration."⟩)
  | some client =>
    match retrieve client query ctx.from_chat_key 3 with
    | Except.error e =>
      (some client, Except.error ⟨"RuntimeError",
        "Failed to recall memory: " ++ e.typeName ++ ": " ++ e.message⟩)
    | Except.ok none =>
      (some client, Except.ok "（在记忆中没有找到相关信息。）")
    | Except.ok (some retrieved_response) =>
      if retrieved_response.related_memories.isEmpty then
        (some client, Except.ok "（在记忆中没有找到相关信息。）")
      else
        let response_text := retrieved_response.related_memories.enum.foldl
          (fun acc p => acc ++ (toString (p.1 + 1) ++ ". " ++ p.2.memory.content ++ "\n"))
          "根据我的回忆，以下是与您问题最相关的信息：\n"
        (some client, Except.ok response_text)

/-- `big` contains `small` as a contiguous substring. -/
def ContainsSub (big small : String) : Prop :=
  ∃ s t, big = s ++ small ++ t

/-! Concrete instances used by the witness theorems. -/

/-- A valid concrete configuration. -/
def cfg0 : MemUConfig := ⟨"key0", "https://api.memu.so", "nekro_agent", "Nekro Assistant", 3⟩

/-- A concrete context with one history message. -/
def ctx0 : AgentCtx := ⟨"chat0", "Alice", [⟨"user", "hello"⟩]⟩

/-- A constructor behaviour that always succeeds. -/
def okConstruct : ConstructFn := fun b k => Except.ok ⟨b, k⟩

/-- A submission behaviour that always succeeds. -/
def okSubmit : SubmitFn := fun _ _ => Except.ok ⟨"task-1"⟩

/-- A retrieval behaviour that always raises. -/
def errRetrieve : RetrieveFn := fun _ _ _ _ => Except.error ⟨"ValueError", "boom"⟩

/-- A retrieval behaviour returning two fixed items. -/
def okRetrieve : RetrieveFn :=
  fun _ _ _ _ => Except.ok (some ⟨[⟨⟨"likes blue"⟩⟩, ⟨⟨"dislikes coffee"⟩⟩]⟩)

/-! Helper lemmas about `String.intercalate`, `String.join` and `ensureN`. -/

theorem intercalate_go_eq (s : String) (l : List String) (acc : String) :
    String.intercalate.go acc s l = acc ++ String.join (l.map fun x => s ++ x) := by
  induction l generalizing acc with
  | nil => apply String.ext; simp [String.intercalate.go]
  | cons a as ih =>
    apply String.ext
    simp [String.intercalate.go, ih (acc ++ s ++ a)]

theorem intercalate_cons (s a : String) (as : List String) :
    String.intercalate s (a :: as) = a ++ String.join (as.map fun x => s ++ x) := by
  simp [String.intercalate, intercalate_go_eq]

theorem foldl_append_eq_join (f : α → String) (l : List α) (init : String) :
    l.foldl (fun acc x => acc ++ f x) init = init ++ String.join (l.map f) := by
  induction l generalizing init with
  | nil => apply String.ext; simp
  | cons a as ih =>
    apply String.ext
    simp [List.foldl_cons, ih (init ++ f a)]

theorem query_of_cons_ne_empty (m : Msg) (rest : List Msg) :
    String.intercalate "\n" ((m :: rest).map fun msg => msg.role ++ ": " ++ msg.content) ≠ "" := by
  intro h
  have hd := congrArg String.data h
  rw [List.map_cons, intercalate_cons] at hd
  simp at hd

theorem ensureN_some (cfg : MemUConfig) (construct : ConstructFn) (c : MemuClient) :
    ∀ n, ensureN cfg construct (some c) n = (some c, 0) := by
  intro n
  induction n with
  | zero => rfl
  | succ k ih => simp [ensureN, ensure_client, ih]

theorem lastN_ne_nil (n : Nat) (xs : List α) (h : xs ≠ []) (hn : n ≠ 0) :
    lastN n xs ≠ [] := by
  unfold lastN
  intro hd
  rw [List.drop_eq_nil_iff] at hd
  cases xs with
  | nil => exact h rfl
  | cons a as => simp at hd; omega

theorem query_text_ne_empty (ctx : AgentCtx) (hh : ctx.message_history ≠ []) :
    String.intercalate "\n"
      ((lastN 4 ctx.message_history).map fun msg => msg.role ++ ": " ++ msg.content) ≠ "" := by
  have h4 := lastN_ne_nil 4 ctx.message_history hh (by decide)
  cases hl : lastN 4 ctx.message_history with
  | nil => exact absurd hl h4
  | cons m rest => exact query_of_cons_ne_empty m rest

theorem newline_dash (c : String) : "\n" ++ ("- " ++ c) = "\n- " ++ c := by
  apply String.ext
  simp only [String.data_append]
  rfl

/-! The claims. -/

/-- Claim C1: the auto-recall injector never propagates an exception:
whenever the retrieval oracle raises (whatever the exception), the
injector returns the empty string rather than an error. -/
theorem inject_retrieval_failure_returns_empty
    (cfg : MemUConfig) (construct : ConstructFn) (retrieve : RetrieveFn)
    (st : Option MemuClient) (ctx : AgentCtx)
    (h : ∀ client q uid k, ∃ e, retrieve client q uid k = Except.error e) :
    (inject_relevant_memories cfg construct retrieve st ctx).text = "" := by
  cases hst : (ensure_client cfg construct st).1 with
  | none => simp [inject_relevant_memories, hst]
  | some client =>
    by_cases hk : cfg.RECALL_TOP_K = 0
    · simp [inject_relevant_memories, hst, hk]
    · by_cases hq : String.intercalate "\n"
        ((lastN 4 ctx.message_history).map fun msg => msg.role ++ ": " ++ msg.content) = ""
      · simp [inject_relevant_memories, hst, hk, hq]
      · obtain ⟨e, he⟩ := h client
          (String.intercalate "\n"
            ((lastN 4 ctx.message_history).map fun msg => msg.role ++ ": " ++ msg.content))
          ctx.from_chat_key cfg.RECALL_TOP_K
        simp [inject_relevant_memories, hst, hk, hq, he]

/-- Witness for C1 at a concrete input. -/
theorem inject_retrieval_failure_returns_empty_witness :
    (inject_relevant_memories cfg0 okConstruct errRetrieve none ctx0).text = "" :=
  inject_retrieval_failure_returns_empty cfg0 okConstruct errRetrieve none ctx0
    (fun _ _ _ _ => ⟨⟨"ValueError", "boom"⟩, rfl⟩)

/-- Claim C3: lazy client lifecycle.  An existing handle is returned
unchanged with no construction; with a valid key and a succeeding
constructor, `n ≥ 1` successive calls construct exactly once and leave
the handle set; with a failing constructor every one of the `n` calls
retries and the handle stays absent. -/
theorem lazy_client_lifecycle
    (cfg : MemUConfig) (construct : ConstructFn) (c : MemuClient) (e : Exc) (n : Nat)
    (hkey : cfg.MEMU_API_KEY ≠ "") :
    ensure_client cfg construct (some c) = (some c, false) ∧
    (construct cfg.BASE_URL cfg.MEMU_API_KEY = Except.ok c → 1 ≤ n →
      ensureN cfg construct none n = (some c, 1)) ∧
    (construct cfg.BASE_URL cfg.MEMU_API_KEY = Except.error e →
      ensureN cfg construct none n = (none, n)) := by
  refine ⟨rfl, ?_, ?_⟩
  · intro hok hn
    obtain ⟨m, rfl⟩ : ∃ m, n = m + 1 := ⟨n - 1, by omega⟩
    simp [ensureN, ensure_client, hkey, hok, ensureN_some]
  · intro herr
    induction n with
    | zero => rfl
    | succ m ih => simp [ensureN, ensure_client, hkey, herr, ih, Nat.add_comm]

/-- Witness for C3: five calls with a succeeding constructor build the
client exactly once. -/
theorem lazy_client_lifecycle_witness :
    ensureN cfg0 okConstruct none 5 = (some ⟨"https://api.memu.so", "key0"⟩, 1) :=
  (lazy_client_lifecycle cfg0 okConstruct ⟨"https://api.memu.so", "key0"⟩
    ⟨"E", "m"⟩ 5 (by decide)).2.1 rfl (by decide)

/-- Claim C4: the injector is a silent no-op — returns `""` — whenever
the client handle is absent after the ensure step or `RECALL_TOP_K` is
`0`; and with an empty API key the ensure step always leaves the handle
absent. -/
theorem inject_silent_noop
    (cfg : MemUConfig) (construct : ConstructFn) (retrieve : RetrieveFn)
    (st : Option MemuClient) (ctx : AgentCtx)
    (h : (ensure_client cfg construct st).1 = none ∨ cfg.RECALL_TOP_K = 0) :
    (inject_relevant_memories cfg construct retrieve st ctx).text = "" ∧
    (cfg.MEMU_API_KEY = "" → (ensure_client cfg construct none).1 = none) := by
  constructor
  · rcases h with h | h
    · simp [inject_relevant_memories, h]
    · cases hst : (ensure_client cfg construct st).1 with
      | none => simp [inject_relevant_memories, hst]
      | some client => simp [inject_relevant_memories, hst, h]
  · intro hk
    simp [ensure_client, hk]

/-- Witness for C4: empty API key at a concrete context. -/
theorem inject_silent_noop_witness :
    (inject_relevant_memories ⟨"", "https://api.memu.so", "a", "b", 3⟩
        okConstruct okRetrieve none ctx0).text = "" ∧
    ((⟨"", "https://api.memu.so", "a", "b", 3⟩ : MemUConfig).MEMU_API_KEY = "" →
      (ensure_client ⟨"", "https://api.memu.so", "a", "b", 3⟩ okConstruct none).1 = none) :=
  inject_silent_noop ⟨"", "https://api.memu.so", "a", "b", 3⟩
    okConstruct okRetrieve none ctx0 (Or.inl rfl)

/-- Claim C9: the `chat_key` argument of `memorize_conversation` has no
effect — two calls differing only in `chat_key` produce identical
results (state, result and submitted request) — and the requester id
submitted to the remote service is always the context's
`from_chat_key`. -/
theorem memorize_chat_key_no_effect
    (cfg : MemUConfig) (construct : ConstructFn) (submit : SubmitFn)
    (st : Option MemuClient) (ctx : AgentCtx) (conversation : String)
    (agent_id agent_name : Option String) (k1 k2 : String) :
    memorize_conversation cfg construct submit st ctx k1 conversation agent_id agent_name =
      memorize_conversation cfg construct submit st ctx k2 conversation agent_id agent_name ∧
    ∀ req,
      (memorize_conversation cfg construct submit st ctx k1 conversation
          agent_id agent_name).submitted = some req →
      req.user_id = ctx.from_chat_key := by
  refine ⟨rfl, ?_⟩
  intro req hreq
  cases hst : (ensure_client cfg construct st).1 with
  | none => simp [memorize_conversation, hst] at hreq
  | some client =>
    simp only [memorize_conversation, hst] at hreq
    split at hreq <;> · cases hreq; rfl

/-- Witness for C9 at a concrete input. -/
theorem memorize_chat_key_no_effect_witness :
    ∃ req,
      (memorize_conversation cfg0 okConstruct okSubmit none ctx0 "k1" "hi"
          none none).submitted = some req ∧
      req.user_id = "chat0" := by
  refine ⟨⟨[⟨"user", "hi"⟩], "chat0", "Alice", "nekro_agent", "Nekro Assistant"⟩, rfl, ?_⟩
  exact (memorize_chat_key_no_effect cfg0 okConstruct okSubmit none ctx0 "hi"
    none none "k1" "k2").2 _ rfl

/-- Claim C2: error surfacing in the explicitly invoked operations.  If
the handle is absent after the ensure step, both `recall_memory` and
`memorize_conversation` raise `ConnectionError`; if the remote call
raises, each re-raises a `RuntimeError` whose message contains the
original exception's type name and message; and in all these failure
cases neither operation returns a success value. -/
theorem recall_memorize_error_surface
    (cfg : MemUConfig) (construct : ConstructFn) (retrieve : RetrieveFn) (submit : SubmitFn)
    (st : Option MemuClient) (ctx : AgentCtx)
    (query chat_key conversation : String)
    (agent_id agent_name : Option String) (e : Exc) :
    ((ensure_client cfg construct st).1 = none →
      (recall_memory cfg construct retrieve st ctx query).2 =
        Except.error ⟨"ConnectionError",
          "memu.so client is not initialized or failed to initialize. Please check the plugin configuration."⟩ ∧
      (memorize_conversation cfg construct submit st ctx chat_key conversation
          agent_id agent_name).result =
        Except.error ⟨"ConnectionError",
          "memu.so client is not initialized or failed to initialize. Please check the plugin configuration."⟩) ∧
    ((∀ c q u k, retrieve c q u k = Except.error e) →
      ∀ client, (ensure_client cfg construct st).1 = some client →
      ∃ m, (recall_memory cfg construct retrieve st ctx query).2 =
          Except.error ⟨"RuntimeError", m⟩ ∧
        ContainsSub m (e.typeName ++ ": " ++ e.message)) ∧
    ((∀ c r, submit c r = Except.error e) →
      ∀ client, (ensure_client cfg construct st).1 = some client →
      ∃ m, (memorize_conversation cfg construct submit st ctx chat_key conversation
            agent_id agent_name).result =
          Except.error ⟨"RuntimeError", m⟩ ∧
        ContainsSub m (e.typeName ++ ": " ++ e.message)) ∧
    (∀ s, (ensure_client cfg construct st).1 = none ∨
        (∀ c q u k, retrieve c q u k = Except.error e) →
      (recall_memory cfg construct retrieve st ctx query).2 ≠ Except.ok s) ∧
    (∀ s, (ensure_client cfg construct st).1 = none ∨
        (∀ c r, submit c r = Except.error e) →
      (memorize_conversation cfg construct submit st ctx chat_key conversation
          agent_id agent_name).result ≠ Except.ok s) := by
  refine ⟨?_, ?_, ?_, ?_, ?_⟩
  · intro h
    constructor
    · simp [recall_memory, h]
    · simp [memorize_conversation, h]
  · intro hr client hclient
    refine ⟨"Failed to recall memory: " ++ e.typeName ++ ": " ++ e.message, ?_,
      "Failed to recall memory: ", "", ?_⟩
    · simp [recall_memory, hclient, hr]
    · apply String.ext; simp
  · intro hs client hclient
    refine ⟨"Failed to memorize conversation: " ++ e.typeName ++ ": " ++ e.message, ?_,
      "Failed to memorize conversation: ", "", ?_⟩
    · simp [memorize_conversation, hclient, hs]
    · apply String.ext; simp
  · intro s h
    rcases h with h | h
    · simp [recall_memory, h]
    · cases hst : (ensure_client cfg construct st).1 with
      | none => simp [recall_memory, hst]
      | some client => simp [recall_memory, hst, h]
  · intro s h
    rcases h with h | h
    · simp [memorize_conversation, h]
    · cases hst : (ensure_client cfg construct st).1 with
      | none => simp [memorize_conversation, hst]
      | some client => simp [memorize_conversation, hst, h]

/-- Witness for C2: a raising retrieval at a concrete input yields a
`RuntimeError` containing the original type name and message. -/
theorem recall_memorize_error_surface_witness :
    ∃ m, (recall_memory cfg0 okConstruct errRetrieve none ctx0 "q").2 =
        Except.error ⟨"RuntimeError", m⟩ ∧
      ContainsSub m ("ValueError" ++ ": " ++ "boom") :=
  (recall_memorize_error_surface cfg0 okConstruct errRetrieve okSubmit none ctx0
    "q" "ck" "conv" none none ⟨"ValueError", "boom"⟩).2.1
    (fun _ _ _ _ => rfl) ⟨"https://api.memu.so", "key0"⟩ rfl

/-- Claim C6: persona resolution in `memorize_conversation`.  Explicit
`agent_id`/`agent_name` arguments are submitted as given and the
confirmation carries the explicit name; omitted arguments fall back to
the configured `AGENT_ID`/`AGENT_NAME` and the confirmation carries the
configured name. -/
theorem memorize_persona_resolution
    (cfg : MemUConfig) (construct : ConstructFn) (submit : SubmitFn)
    (st : Option MemuClient) (ctx : AgentCtx)
    (chat_key conversation aid aname : String) (client : MemuClient) (th : TaskHandle)
    (hclient : (ensure_client cfg construct st).1 = some client)
    (hsub : ∀ r, submit client r = Except.ok th) :
    ((memorize_conversation cfg construct submit st ctx chat_key conversation
        (some aid) (some aname)).submitted =
      some ⟨[⟨"user", conversation⟩], ctx.from_chat_key, ctx.channel_name, aid, aname⟩ ∧
     (memorize_conversation cfg construct submit st ctx chat_key conversation
        (some aid) (some aname)).result =
      Except.ok ("✅ " ++ aname ++ " 已经收到指令，会把内容记下来的！")) ∧
    ((memorize_conversation cfg construct submit st ctx chat_key conversation
        none none).submitted =
      some ⟨[⟨"user", conversation⟩], ctx.from_chat_key, ctx.channel_name,
        cfg.AGENT_ID, cfg.AGENT_NAME⟩ ∧
     (memorize_conversation cfg construct submit st ctx chat_key conversation
        none none).result =
      Except.ok ("✅ " ++ cfg.AGENT_NAME ++ " 已经收到指令，会把内容记下来的！")) := by
  refine ⟨⟨?_, ?_⟩, ?_, ?_⟩ <;> simp [memorize_conversation, hclient, hsub]

/-- Witness for C6: explicit persona (X, Y) at a concrete input. -/
theorem memorize_persona_resolution_witness :
    (memorize_conversation cfg0 okConstruct okSubmit none ctx0 "ck" "c"
        (some "X") (some "Y")).submitted =
      some ⟨[⟨"user", "c"⟩], "chat0", "Alice", "X", "Y"⟩ ∧
    (memorize_conversation cfg0 okConstruct okSubmit none ctx0 "ck" "c"
        (some "X") (some "Y")).result =
      Except.ok ("✅ " ++ "Y" ++ " 已经收到指令，会把内容记下来的！") :=
  (memorize_persona_resolution cfg0 okConstruct okSubmit none ctx0 "ck" "c" "X" "Y"
    ⟨"https://api.memu.so", "key0"⟩ ⟨"task-1"⟩ rfl (fun _ => rfl)).1

/-- Claim C10: empty-string persona arguments count as provided —
`agent_id = some ""` (and `agent_name = some ""`) submit the empty
string and use it in the confirmation, while the configured defaults
apply only when the argument is `none`. -/
theorem memorize_empty_persona_args
    (cfg : MemUConfig) (construct : ConstructFn) (submit : SubmitFn)
    (st : Option MemuClient) (ctx : AgentCtx)
    (chat_key conversation : String) (client : MemuClient)
    (hclient : (ensure_client cfg construct st).1 = some client) :
    (memorize_conversation cfg construct submit st ctx chat_key conversation
        (some "") (some "")).submitted =
      some ⟨[⟨"user", conversation⟩], ctx.from_chat_key, ctx.channel_name, "", ""⟩ ∧
    (∀ th, (∀ r, submit client r = Except.ok th) →
      (memorize_conversation cfg construct submit st ctx chat_key conversation
          (some "") (some "")).result =
        Except.ok ("✅ " ++ "" ++ " 已经收到指令，会把内容记下来的！")) ∧
    (memorize_conversation cfg construct submit st ctx chat_key conversation
        none none).submitted =
      some ⟨[⟨"user", conversation⟩], ctx.from_chat_key, ctx.channel_name,
        cfg.AGENT_ID, cfg.AGENT_NAME⟩ := by
  refine ⟨?_, ?_, ?_⟩
  · simp only [memorize_conversation, hclient]
    split <;> rfl
  · intro th hsub
    simp [memorize_conversation, hclient, hsub]
  · simp only [memorize_conversation, hclient]
    split <;> rfl

/-- Witness for C10 at a concrete input. -/
theorem memorize_empty_persona_args_witness :
    (memorize_conversation cfg0 okConstruct okSubmit none ctx0 "ck" "c"
        (some "") (some "")).submitted =
      some ⟨[⟨"user", "c"⟩], "chat0", "Alice", "", ""⟩ :=
  (memorize_empty_persona_args cfg0 okConstruct okSubmit none ctx0 "ck" "c"
    ⟨"https://api.memu.so", "key0"⟩ rfl).1

/-- Claim C5: query windowing.  The window is at most the last 4
history messages, a suffix of the history (so in original chronological
order); with an empty history the injector returns `""` and never calls
retrieval; with a non-empty history it calls retrieval with exactly the
newline-join of the window's `"role: content"` lines, the chat key and
the configured top-k. -/
theorem inject_query_windowing
    (cfg : MemUConfig) (construct : ConstructFn) (retrieve : RetrieveFn)
    (st : Option MemuClient) (ctx : AgentCtx) (client : MemuClient)
    (hclient : (ensure_client cfg construct st).1 = some client)
    (hk : cfg.RECALL_TOP_K ≠ 0) :
    (lastN 4 ctx.message_history).length ≤ 4 ∧
    lastN 4 ctx.message_history <:+ ctx.message_history ∧
    (ctx.message_history = [] →
      (inject_relevant_memories cfg construct retrieve st ctx).text = "" ∧
      (inject_relevant_memories cfg construct retrieve st ctx).retrieval_call = none) ∧
    (ctx.message_history ≠ [] →
      (inject_relevant_memories cfg construct retrieve st ctx).retrieval_call =
        some (String.intercalate "\n"
            ((lastN 4 ctx.message_history).map fun msg => msg.role ++ ": " ++ msg.content),
          ctx.from_chat_key, cfg.RECALL_TOP_K)) := by
  refine ⟨?_, List.drop_suffix _ _, ?_, ?_⟩
  · simp [lastN]; omega
  · intro hh
    constructor <;> simp [inject_relevant_memories, hclient, hk, hh, lastN, String.intercalate]
  · intro hh
    have hq := query_text_ne_empty ctx hh
    simp only [inject_relevant_memories, hclient]
    rw [if_neg hk, if_neg hq]
    split
    · rfl
    · rfl
    · split <;> rfl

/-- Witness for C5 at a concrete one-message context. -/
theorem inject_query_windowing_witness :
    (inject_relevant_memories cfg0 okConstruct okRetrieve none ctx0).retrieval_call =
      some ("user: hello", "chat0", 3) :=
  (inject_query_windowing cfg0 okConstruct okRetrieve none ctx0
    ⟨"https://api.memu.so", "key0"⟩ rfl (by decide)).2.2.2 (by decide)

/-- Claim C7: injection formatting.  With a falsy or empty retrieval
result the injector returns `""`; with a non-empty result it returns
the fixed header line followed by one `"- content"` line per item,
newline-joined, content verbatim and no trailing newline added. -/
theorem inject_formatting
    (cfg : MemUConfig) (construct : ConstructFn) (retrieve : RetrieveFn)
    (st : Option MemuClient) (ctx : AgentCtx) (client : MemuClient)
    (resp : Option RetrievedResponse)
    (hclient : (ensure_client cfg construct st).1 = some client)
    (hk : cfg.RECALL_TOP_K ≠ 0) (hh : ctx.message_history ≠ [])
    (hr : ∀ c q u k, retrieve c q u k = Except.ok resp) :
    (resp = none ∨ resp = some ⟨[]⟩ →
      (inject_relevant_memories cfg construct retrieve st ctx).text = "") ∧
    (∀ items, resp = some ⟨items⟩ → items ≠ [] →
      (inject_relevant_memories cfg construct retrieve st ctx).text =
        "--- Relevant Memories Retrieved From Your Past ---" ++
          String.join (items.map fun memory_item =>
            "\n- " ++ memory_item.memory.content)) := by
  have hq := query_text_ne_empty ctx hh
  constructor
  · rintro (rfl | rfl) <;> simp [inject_relevant_memories, hclient, hk, hq, hr]
  · intro items hresp hne
    subst hresp
    simp only [inject_relevant_memories, hclient]
    simp [hk, hq, hr, hne, intercalate_cons]
    have hmaps :
        List.map ((fun x => "\n" ++ x) ∘ fun memory_item => "- " ++ memory_item.memory.content)
            items =
          List.map (fun memory_item => "\n- " ++ memory_item.memory.content) items :=
      List.map_congr_left (fun a _ => newline_dash a.memory.content)
    rw [hmaps]

/-- Witness for C7: two items at a concrete input. -/
theorem inject_formatting_witness :
    (inject_relevant_memories cfg0 okConstruct okRetrieve none ctx0).text =
      "--- Relevant Memories Retrieved From Your Past ---\n- likes blue\n- dislikes coffee" :=
  (inject_formatting cfg0 okConstruct okRetrieve none ctx0
    ⟨"https://api.memu.so", "key0"⟩ (some ⟨[⟨⟨"likes blue"⟩⟩, ⟨⟨"dislikes coffee"⟩⟩]⟩)
    rfl (by decide) (by decide) (fun _ _ _ _ => rfl)).2
    [⟨⟨"likes blue"⟩⟩, ⟨⟨"dislikes coffee"⟩⟩] rfl (by decide)

/-- Claim C8: query formatting in the active recall tool.  With a falsy
or empty retrieval result, `recall_memory` returns the fixed not-found
message; with a non-empty result it returns the lead-in sentence
followed by a 1-indexed numbered list, one item per line, each line
ending with a newline, content verbatim. -/
theorem recall_query_formatting
    (cfg : MemUConfig) (construct : ConstructFn) (retrieve : RetrieveFn)
    (st : Option MemuClient) (ctx : AgentCtx) (query : String) (client : MemuClient)
    (resp : Option RetrievedResponse)
    (hclient : (ensure_client cfg construct st).1 = some client)
    (hr : ∀ c q u k, retrieve c q u k = Except.ok resp) :
    (resp = none ∨ resp = some ⟨[]⟩ →
      (recall_memory cfg construct retrieve st ctx query).2 =
        Except.ok "（在记忆中没有找到相关信息。）") ∧
    (∀ items, resp = some ⟨items⟩ → items ≠ [] →
      (recall_memory cfg construct retrieve st ctx query).2 =
        Except.ok ("根据我的回忆，以下是与您问题最相关的信息：\n" ++
          String.join (items.enum.map fun p =>
            toString (p.1 + 1) ++ ". " ++ p.2.memory.content ++ "\n"))) := by
  constructor
  · rintro (rfl | rfl) <;> simp [recall_memory, hclient, hr]
  · intro items hresp hne
    subst hresp
    simp [recall_memory, hclient, hr, hne, foldl_append_eq_join]

/-- Witness for C8: two items at a concrete input. -/
theorem recall_query_formatting_witness :
    (recall_memory cfg0 okConstruct okRetrieve none ctx0 "q").2 =
      Except.ok "根据我的回忆，以下是与您问题最相关的信息：\n1. likes blue\n2. dislikes coffee\n" :=
  (recall_query_formatting cfg0 okConstruct okRetrieve none ctx0 "q"
    ⟨"https://api.memu.so", "key0"⟩ (some ⟨[⟨⟨"likes blue"⟩⟩, ⟨⟨"dislikes coffee"⟩⟩]⟩)
    rfl (fun _ _ _ _ => rfl)).2
    [⟨⟨"likes blue"⟩⟩, ⟨⟨"dislikes coffee"⟩⟩] rfl (by decide)

end MemuMemory
